import Mathlib

/-!
Shallow embedding of the SyChat client reconciliation core
(src/public/app.jsx, the App with optimistic pendingMessages):
the merged timeline, the pending-message queue, the attachment
staging buffer, the polling synchronizer, the scroll-anchoring
controller and the avatar fallback helpers, together with proofs
of the specified properties.
-/

/-- A chat message, authoritative or optimistic.  Authoritative messages
come from the server and carry `pending := false`; optimistic copies are
built by `sendMessage` with `pending := true`.  `createdAt` is an epoch
timestamp; the merge comparator reads it as `a.createdAt || 0`, which we
model with an `Option Nat` and `getD 0`. -/
structure Msg where
  id : String
  nickname : String
  avatar : Option String
  text : String
  attachments : List String
  createdAt : Option Nat
  pending : Bool
deriving Repr, DecidableEq

/-- The sort key used by the merge comparator: `a.createdAt || 0`. -/
def sortKey (m : Msg) : Nat := m.createdAt.getD 0

/-- The comparator of `allMessages`:
`(a, b) => (a.createdAt || 0) - (b.createdAt || 0)` keeps `a` before `b`
exactly when the difference is non-positive, i.e. when
`sortKey a ≤ sortKey b`. -/
def createdAtLe (a b : Msg) : Bool := sortKey a ≤ sortKey b

/-- Function `allMessages` (app.jsx): concatenate authoritative `messages` with
`pendingMessages` and sort by `createdAt`.  JavaScript `Array.prototype.sort`
is stable, which `List.mergeSort` models. -/
def allMessages (messages pendingMessages : List Msg) : List Msg :=
  (messages ++ pendingMessages).mergeSort createdAtLe

theorem createdAtLe_trans :
    ∀ a b c : Msg, createdAtLe a b → createdAtLe b c → createdAtLe a c := by
  intro a b c hab hbc
  simp only [createdAtLe, decide_eq_true_eq] at *
  omega

theorem createdAtLe_total : ∀ a b : Msg, createdAtLe a b || createdAtLe b a := by
  intro a b
  simp only [createdAtLe, Bool.or_eq_true, decide_eq_true_eq]
  omega

/-- C1: the merged timeline equals the stable sort of the concatenation:
it is pairwise non-decreasing by `createdAt`, it is a permutation of the
concatenation (authoritative first, then pending), entries with any fixed
timestamp keep exactly the relative order they had in the concatenation,
and re-merging an already merged timeline yields the same list. -/
theorem allMessages_spec (ms ps : List Msg) :
    (allMessages ms ps).Pairwise (fun a b => sortKey a ≤ sortKey b) ∧
    (allMessages ms ps).Perm (ms ++ ps) ∧
    (∀ t : Nat, (allMessages ms ps).filter (fun m => sortKey m == t)
        = (ms ++ ps).filter (fun m => sortKey m == t)) ∧
    allMessages (allMessages ms ps) [] = allMessages ms ps := by
  refine ⟨?_, ?_, ?_, ?_⟩
  · have h := List.sorted_mergeSort createdAtLe_trans createdAtLe_total (ms ++ ps)
    exact h.imp (by intro a b hab; simpa [createdAtLe] using hab)
  · exact List.mergeSort_perm (ms ++ ps) createdAtLe
  · intro t
    set l := ms ++ ps with hl
    set p : Msg → Bool := fun m => sortKey m == t with hp
    have hallp : ∀ m ∈ l.filter p, p m := fun m hm => List.of_mem_filter hm
    have hpair : (l.filter p).Pairwise fun a b => createdAtLe a b = true := by
      apply List.pairwise_of_forall_mem_list
      intro a ha b hb
      have ha2 : sortKey a = t := by simpa [hp] using hallp a ha
      have hb2 : sortKey b = t := by simpa [hp] using hallp b hb
      simp [createdAtLe, ha2, hb2]
    have hstable : List.Sublist (l.filter p) (allMessages ms ps) :=
      List.sublist_mergeSort createdAtLe_trans createdAtLe_total hpair
        (List.filter_sublist l)
    have hsub2 : List.Sublist (l.filter p) ((allMessages ms ps).filter p) := by
      have h1 := hstable.filter p
      rwa [List.filter_filter, show (fun a => p a && p a) = p by
        funext a; cases hpa : p a <;> simp [hpa]] at h1
    have hperm : List.Perm ((allMessages ms ps).filter p) (l.filter p) :=
      (List.mergeSort_perm l createdAtLe).filter p
    exact (hsub2.eq_of_length hperm.length_eq.symm).symm
  · have hs := List.sorted_mergeSort createdAtLe_trans createdAtLe_total (ms ++ ps)
    simp only [allMessages, List.append_nil]
    exact List.mergeSort_of_sorted hs

/-- One staged attachment: `{ id: crypto.randomUUID(), dataUrl }`. -/
structure AttachmentItem where
  id : String
  dataUrl : String
deriving Repr, DecidableEq

/-- Payload of a successful response of `GET /api/state`:
`{ me, users, messages }`. -/
structure StateData where
  me : String
  users : List String
  messages : List Msg
deriving Repr, DecidableEq

/-- The client state touched by the reconciliation core: the stored token
(`localStorage`), `me`, `users`, `messages`, `pendingMessages`, the compose
`text`, the staged `attachments`, the chat-pane `error` and `ready`. -/
structure ClientState where
  token : Option String
  me : Option String
  users : List String
  messages : List Msg
  pendingMessages : List Msg
  text : String
  attachments : List AttachmentItem
  error : String
  ready : Bool
deriving Repr, DecidableEq

/-- Function `loadState` (app.jsx): on success store `me`, `users`, `messages` and
clear the error; on failure store the error message, and when it is exactly
the string "unauthorized" also remove the stored token and clear `me`;
`ready` is set in the `finally` block either way.  `pendingMessages`,
`text` and `attachments` are not touched. -/
def loadState (resp : Except String StateData) (s : ClientState) : ClientState :=
  match resp with
  | Except.ok data =>
      { s with me := some data.me, users := data.users,
               messages := data.messages, error := "", ready := true }
  | Except.error e =>
      let s1 := { s with error := e }
      let s2 := if e = "unauthorized" then { s1 with token := none, me := none } else s1
      { s2 with ready := true }

/-- The polling loop's continuation after `await loadState()`:
`if (active && localStorage.getItem(TOKEN_KEY)) timer = setTimeout(loop, 1800)`.
Returns the delay of the scheduled tick, if one is scheduled. -/
def loopReschedule (active : Bool) (s : ClientState) : Option Nat :=
  if active ∧ s.token.isSome then some 1800 else none

/-- The `onAuth` schedule chain's continuation after `await loadState()`:
`if (localStorage.getItem(TOKEN_KEY)) setTimeout(schedule, 1800)`. -/
def onAuthReschedule (s : ClientState) : Option Nat :=
  if s.token.isSome then some 1800 else none

/-- Value `authenticated` (app.jsx): `Boolean(localStorage.getItem(TOKEN_KEY) && me)`. -/
def authenticated (s : ClientState) : Bool := s.token.isSome && s.me.isSome

/-- The optimistic message built by `sendMessage`. -/
def mkOptimistic (tempId nickname : String) (avatar : Option String)
    (text : String) (attachments : List String) (now : Nat) : Msg :=
  { id := tempId, nickname := nickname, avatar := avatar, text := text,
    attachments := attachments, createdAt := some now, pending := true }

/-- The synchronous prefix of `sendMessage` after validation: append the
optimistic copy to `pendingMessages`, clear the compose text and the
attachment buffer. -/
def submitStart (m : Msg) (s : ClientState) : ClientState :=
  { s with pendingMessages := s.pendingMessages ++ [m],
           text := "", attachments := [] }

/-- The `sendMessage` success continuation (before the forced `loadState`):
`setPendingMessages((prev) => prev.filter((m) => m.id !== tempId))`. -/
def sendSuccess (tempId : String) (s : ClientState) : ClientState :=
  { s with pendingMessages := s.pendingMessages.filter (fun m => m.id ≠ tempId) }

/-- The `sendMessage` failure handler: remove the optimistic copy by its
temporary id and surface the error message. -/
def sendFailure (tempId errMsg : String) (s : ClientState) : ClientState :=
  { s with pendingMessages := s.pendingMessages.filter (fun m => m.id ≠ tempId),
           error := errMsg }

/-- A concrete authenticated client state used for concrete evaluations. -/
def demoPending : Msg := mkOptimistic "tmp1" "ann" none "hi" [] 100

def demoState : ClientState :=
  { token := some "tok", me := some "ann", users := ["ann"], messages := [],
    pendingMessages := [demoPending], text := "", attachments := [],
    error := "", ready := true }

def demoData : StateData := { me := "ann", users := ["ann"], messages := [] }

/-- C2 counterexample: a synchronization cycle that completes successfully
does not remove the pending message that existed when it began —
`loadState` leaves the pending queue untouched. -/
theorem loadState_keeps_pending_counterexample :
    (loadState (Except.ok demoData) demoState).pendingMessages = [demoPending] ∧
    demoPending ∈ (loadState (Except.ok demoData) demoState).pendingMessages := by
  constructor
  · rfl
  · simp [loadState, demoState]

/-- C2 amended: a synchronization cycle, successful or failed, leaves the
pending queue exactly as it was; a PendingMessage is removed only when its
own send request resolves — `sendSuccess` (just before the forced cycle) or
`sendFailure` remove exactly the entries carrying its temporary id. -/
theorem pending_removed_only_by_own_send (resp : Except String StateData)
    (s : ClientState) (tempId errMsg : String) :
    (loadState resp s).pendingMessages = s.pendingMessages ∧
    (∀ m ∈ (sendSuccess tempId s).pendingMessages, m.id ≠ tempId) ∧
    (∀ m ∈ (sendFailure tempId errMsg s).pendingMessages, m.id ≠ tempId) ∧
    (∀ m ∈ s.pendingMessages, m.id ≠ tempId →
        m ∈ (sendSuccess tempId s).pendingMessages) := by
  refine ⟨?_, ?_, ?_, ?_⟩
  · cases resp with
    | ok d => rfl
    | error e =>
        simp only [loadState]
        split <;> rfl
  · intro m hm
    have := List.of_mem_filter hm
    simpa using this
  · intro m hm
    have := List.of_mem_filter hm
    simpa using this
  · intro m hm hid
    exact List.mem_filter.mpr ⟨hm, by simpa using hid⟩

/-- C6: for every submit whose send request fails, the failure handler
removes the PendingMessage carrying that submit's temporary identifier and
surfaces the error message; afterwards no pending entry with that
temporary identifier remains in the merged timeline (authoritative
messages are never pending). -/
theorem sendFailure_spec (tempId errMsg : String) (s : ClientState)
    (hauth : ∀ m ∈ s.messages, m.pending = false) :
    (sendFailure tempId errMsg s).error = errMsg ∧
    (∀ m ∈ (sendFailure tempId errMsg s).pendingMessages, m.id ≠ tempId) ∧
    (∀ m ∈ allMessages (sendFailure tempId errMsg s).messages
            (sendFailure tempId errMsg s).pendingMessages,
        m.pending = true → m.id ≠ tempId) := by
  refine ⟨rfl, ?_, ?_⟩
  · intro m hm
    have := List.of_mem_filter hm
    simpa using this
  · intro m hm hp
    have hmem : m ∈ (sendFailure tempId errMsg s).messages ++
        (sendFailure tempId errMsg s).pendingMessages := by
      have := List.mem_mergeSort.mp hm
      simpa using this
    rcases List.mem_append.mp hmem with hleft | hright
    · have : m.pending = false := hauth m hleft
      rw [hp] at this
      cases this
    · have := List.of_mem_filter hright
      simpa using this

/-- Witness for C6 at a concrete failed submit. -/
theorem sendFailure_spec_witness :
    (sendFailure "tmp1" "Request failed" demoState).error = "Request failed" ∧
    (∀ m ∈ (sendFailure "tmp1" "Request failed" demoState).pendingMessages,
        m.id ≠ "tmp1") ∧
    (∀ m ∈ allMessages (sendFailure "tmp1" "Request failed" demoState).messages
            (sendFailure "tmp1" "Request failed" demoState).pendingMessages,
        m.pending = true → m.id ≠ "tmp1") :=
  sendFailure_spec "tmp1" "Request failed" demoState
    (by intro m hm; simp [demoState] at hm)

/-- C7: a synchronization cycle failing with exactly "unauthorized" removes
the stored token, clears the local identity (so `authenticated` is false and
the UI shows the auth screen) and schedules no further tick — neither the
poll loop nor the `onAuth` chain reschedules; any other failure surfaces the
error, keeps the token and reschedules on the same 1800 ms cadence. -/
theorem loadState_failure_spec (s : ClientState) (active : Bool) (e : String)
    (he : e ≠ "unauthorized") (htok : s.token.isSome) :
    ((loadState (Except.error "unauthorized") s).token = none ∧
     (loadState (Except.error "unauthorized") s).me = none ∧
     authenticated (loadState (Except.error "unauthorized") s) = false ∧
     (loadState (Except.error "unauthorized") s).error = "unauthorized" ∧
     loopReschedule active (loadState (Except.error "unauthorized") s) = none ∧
     onAuthReschedule (loadState (Except.error "unauthorized") s) = none) ∧
    ((loadState (Except.error e) s).error = e ∧
     (loadState (Except.error e) s).token = s.token ∧
     loopReschedule true (loadState (Except.error e) s) = some 1800 ∧
     onAuthReschedule (loadState (Except.error e) s) = some 1800) := by
  refine ⟨⟨rfl, rfl, rfl, rfl, ?_, ?_⟩, ?_, ?_, ?_, ?_⟩
  · simp [loopReschedule, loadState]
  · simp [onAuthReschedule, loadState]
  · simp [loadState, he]
  · simp [loadState, he]
  · simp [loopReschedule, loadState, he, htok]
  · simp [onAuthReschedule, loadState, he, htok]

/-- Witness for C7 at a concrete non-"unauthorized" failure. -/
theorem loadState_failure_spec_witness :
    ((loadState (Except.error "unauthorized") demoState).token = none ∧
     (loadState (Except.error "unauthorized") demoState).me = none ∧
     authenticated (loadState (Except.error "unauthorized") demoState) = false ∧
     (loadState (Except.error "unauthorized") demoState).error = "unauthorized" ∧
     loopReschedule true (loadState (Except.error "unauthorized") demoState) = none ∧
     onAuthReschedule (loadState (Except.error "unauthorized") demoState) = none) ∧
    ((loadState (Except.error "Request failed") demoState).error = "Request failed" ∧
     (loadState (Except.error "Request failed") demoState).token = demoState.token ∧
     loopReschedule true (loadState (Except.error "Request failed") demoState) = some 1800 ∧
     onAuthReschedule (loadState (Except.error "Request failed") demoState) = some 1800) :=
  loadState_failure_spec demoState true "Request failed" (by decide) (by decide)

/-- C9 counterexample: an error set by a failed send is cleared by the next
successful synchronization cycle — `loadState` clears the chat error
unconditionally on success, not only errors of its own kind. -/
theorem send_error_cleared_by_sync_counterexample :
    (sendFailure "tmp1" "send failed" demoState).error = "send failed" ∧
    (loadState (Except.ok demoData)
        (sendFailure "tmp1" "send failed" demoState)).error = "" ∧
    ("" : String) ≠ "send failed" := by
  exact ⟨rfl, rfl, by decide⟩

/-- C9 amended: the chat-pane error is cleared by every successful
synchronization cycle regardless of which operation set it; a failed cycle
or a failed send overwrite it with the new message; a successful send does
not clear it directly (it is cleared only by the forced cycle that the
successful send triggers). -/
theorem chat_error_lifecycle (s : ClientState) (d : StateData)
    (tempId e : String) :
    (loadState (Except.ok d) s).error = "" ∧
    (loadState (Except.error e) s).error = e ∧
    (sendFailure tempId e s).error = e ∧
    (sendSuccess tempId s).error = s.error := by
  refine ⟨rfl, ?_, rfl, rfl⟩
  simp only [loadState]
  split <;> rfl

/-- The loop body of `addAttachmentDataUrls`: walk the candidate encoded
images; push a candidate only when its value is not already present and
the buffer holds fewer than 6 items; otherwise skip it and keep walking.
`existing` mirrors the `Set` seeded with the previous values, `ids`
supplies the fresh identifiers produced by `crypto.randomUUID()`. -/
def addLoop : List String → List String → List AttachmentItem → List String →
    List AttachmentItem
  | [], _, next, _ => next
  | dataUrl :: rest, existing, next, ids =>
      if dataUrl ∉ existing ∧ next.length < 6 then
        addLoop rest (dataUrl :: existing)
          (next ++ [{ id := ids.headD "", dataUrl := dataUrl }]) ids.tail
      else
        addLoop rest existing next ids

/-- Function `addAttachmentDataUrls` (app.jsx): the `setAttachments` updater, seeded
with the set of values already staged. -/
def addAttachmentDataUrls (dataUrls ids : List String)
    (prev : List AttachmentItem) : List AttachmentItem :=
  addLoop dataUrls (prev.map AttachmentItem.dataUrl) prev ids

/-- Buffer states reachable through the UI: the initial empty buffer,
`addAttachmentDataUrls` (file pick or paste), removal of one staged item by
its id (the preview's remove button), and the clearing done by a submit. -/
inductive AttachmentReachable : List AttachmentItem → Prop
  | init : AttachmentReachable []
  | add (dataUrls ids : List String) {prev : List AttachmentItem} :
      AttachmentReachable prev →
      AttachmentReachable (addAttachmentDataUrls dataUrls ids prev)
  | remove (rid : String) {prev : List AttachmentItem} :
      AttachmentReachable prev →
      AttachmentReachable (prev.filter (fun x => x.id ≠ rid))
  | clear {prev : List AttachmentItem} :
      AttachmentReachable prev → AttachmentReachable []

theorem addLoop_inv (dataUrls : List String) :
    ∀ (existing : List String) (next : List AttachmentItem) (ids : List String),
      (next.map AttachmentItem.dataUrl).Nodup → next.length ≤ 6 →
      (∀ d ∈ next.map AttachmentItem.dataUrl, d ∈ existing) →
      ((addLoop dataUrls existing next ids).map AttachmentItem.dataUrl).Nodup ∧
      (addLoop dataUrls existing next ids).length ≤ 6 := by
  induction dataUrls with
  | nil => intro existing next ids h1 h2 _; exact ⟨h1, h2⟩
  | cons d rest ih =>
      intro existing next ids h1 h2 h3
      rw [addLoop]
      split
      · rename_i hcond
        apply ih
        · rw [List.map_append]
          simp only [List.map_cons, List.map_nil]
          rw [List.nodup_append]
          refine ⟨h1, List.nodup_singleton d, ?_⟩
          intro x hx hx2
          have : x = d := by simpa using hx2
          subst this
          exact hcond.1 (h3 x hx)
        · have := hcond.2
          simp only [List.length_append, List.length_cons, List.length_nil]
          omega
        · intro x hx
          rw [List.map_append] at hx
          simp only [List.map_cons, List.map_nil] at hx
          rcases List.mem_append.mp hx with hx | hx
          · exact List.mem_cons_of_mem d (h3 x hx)
          · have hxd : x = d := by simpa using hx
            rw [hxd]
            exact List.mem_cons_self d existing
      · exact ih existing next ids h1 h2 h3

theorem attachment_reachable_inv {buf : List AttachmentItem}
    (h : AttachmentReachable buf) :
    (buf.map AttachmentItem.dataUrl).Nodup ∧ buf.length ≤ 6 := by
  induction h with
  | init => exact ⟨List.nodup_nil, by decide⟩
  | add dataUrls ids hprev ih =>
      exact addLoop_inv dataUrls _ _ ids ih.1 ih.2 (fun d hd => hd)
  | remove rid hprev ih =>
      constructor
      · exact List.Nodup.sublist ((List.filter_sublist _).map _) ih.1
      · exact le_trans (List.length_filter_le _ _) ih.2
  | clear hprev ih => exact ⟨List.nodup_nil, by decide⟩

/-- C3: adding any batch of encoded images to any reachable buffer keeps
the buffer free of duplicate encoded values and never above 6 items; a
candidate that is already present, or that arrives when the buffer is
full, is skipped without error while the rest of the batch is still
processed. -/
theorem addAttachmentDataUrls_spec (dataUrls ids : List String)
    {buf : List AttachmentItem} (h : AttachmentReachable buf) :
    ((addAttachmentDataUrls dataUrls ids buf).map AttachmentItem.dataUrl).Nodup ∧
    (addAttachmentDataUrls dataUrls ids buf).length ≤ 6 ∧
    (∀ (d : String) (rest existing : List String) (next : List AttachmentItem)
        (ids2 : List String), d ∈ existing →
        addLoop (d :: rest) existing next ids2 = addLoop rest existing next ids2) ∧
    (∀ (d : String) (rest existing : List String) (next : List AttachmentItem)
        (ids2 : List String), 6 ≤ next.length →
        addLoop (d :: rest) existing next ids2 = addLoop rest existing next ids2) := by
  have hinv := attachment_reachable_inv h
  have hmain := addLoop_inv dataUrls (buf.map AttachmentItem.dataUrl) buf ids
    hinv.1 hinv.2 (fun d hd => hd)
  refine ⟨hmain.1, hmain.2, ?_, ?_⟩
  · intro d rest existing next ids2 hd
    rw [addLoop]
    rw [if_neg]
    intro hc
    exact hc.1 hd
  · intro d rest existing next ids2 hlen
    rw [addLoop]
    rw [if_neg]
    intro hc
    omega

/-- Witness for C3: a concrete batch with a duplicate and overflow added to
a concretely reachable buffer. -/
theorem addAttachmentDataUrls_spec_witness :
    ((addAttachmentDataUrls ["u1", "u2", "u1", "u3", "u4", "u5", "u6", "u7"]
        ["i1", "i2", "i3", "i4", "i5", "i6", "i7", "i8"] []).map
        AttachmentItem.dataUrl).Nodup ∧
    (addAttachmentDataUrls ["u1", "u2", "u1", "u3", "u4", "u5", "u6", "u7"]
        ["i1", "i2", "i3", "i4", "i5", "i6", "i7", "i8"] []).length ≤ 6 ∧
    (∀ (d : String) (rest existing : List String) (next : List AttachmentItem)
        (ids2 : List String), d ∈ existing →
        addLoop (d :: rest) existing next ids2 = addLoop rest existing next ids2) ∧
    (∀ (d : String) (rest existing : List String) (next : List AttachmentItem)
        (ids2 : List String), 6 ≤ next.length →
        addLoop (d :: rest) existing next ids2 = addLoop rest existing next ids2) :=
  addAttachmentDataUrls_spec ["u1", "u2", "u1", "u3", "u4", "u5", "u6", "u7"]
    ["i1", "i2", "i3", "i4", "i5", "i6", "i7", "i8"] AttachmentReachable.init

/-- The asynchronous state of the client's fetch machinery: the poll
effect's `active` flag, the number of pending `setTimeout` ticks, the
number of in-flight `loadState` fetches started by the poll loop, the
number of in-flight `loadState` fetches started by `sendMessage` after a
successful send POST, the temporary ids of the `POST /api/message`
requests still in flight, and the client state all of them mutate on
resolution. -/
structure PollSystem where
  active : Bool
  timers : Nat
  pollFetches : Nat
  sendFetches : Nat
  sendPosts : List String
  client : ClientState
deriving Repr, DecidableEq

/-- Total number of state fetches currently in flight. -/
def fetchesInFlight (s : PollSystem) : Nat := s.pollFetches + s.sendFetches

/-- Interleaving steps of the polling and sending machinery, one per
suspension-free segment of the source:
* `timerFire` — a scheduled tick fires and `loop` runs: it returns at once
  when `active` is false, otherwise it starts a `loadState` fetch;
* `pollResolve` — a loop fetch resolves: `loadState` applies its mutations
  (unconditionally — it consults no liveness flag), then
  `if (active && localStorage.getItem(TOKEN_KEY))` schedules the next tick;
* `submit` — the user submits the composer form, which exists only while
  the component is mounted and the authenticated chat UI is rendered
  (these are the only preconditions the source enforces, via rendering):
  the optimistic copy is appended, the compose state cleared and the
  `POST /api/message` carrying its temporary id started;
* `sendPostResolve` — an in-flight send POST succeeds: `sendMessage`
  removes the optimistic copy by its temporary id and starts the forced
  `loadState` fetch, with no liveness or authentication check — this
  continuation runs even after teardown;
* `sendPostFail` — an in-flight send POST fails: the catch branch removes
  the optimistic copy and surfaces the error, again with no liveness
  check;
* `sendResolve` — a send-triggered `loadState` fetch resolves and applies
  its mutations; `sendMessage` schedules nothing afterwards;
* `cleanup` — the effect teardown: `active = false; clearTimeout(timer)`. -/
inductive PollStep : PollSystem → PollSystem → Prop
  | timerFire (s : PollSystem) (h : 0 < s.timers) :
      PollStep s { s with
                   timers := s.timers - 1,
                   pollFetches := if s.active then s.pollFetches + 1 else s.pollFetches }
  | pollResolve (s : PollSystem) (resp : Except String StateData)
      (h : 0 < s.pollFetches) :
      PollStep s { s with
                   pollFetches := s.pollFetches - 1,
                   client := loadState resp s.client,
                   timers := if s.active ∧ (loadState resp s.client).token.isSome
                             then s.timers + 1 else s.timers }
  | submit (s : PollSystem) (m : Msg) (h1 : s.active = true)
      (h2 : authenticated s.client = true) :
      PollStep s { s with
                   client := submitStart m s.client,
                   sendPosts := m.id :: s.sendPosts }
  | sendPostResolve (s : PollSystem) (tempId : String)
      (h : tempId ∈ s.sendPosts) :
      PollStep s { s with
                   sendPosts := s.sendPosts.erase tempId,
                   client := sendSuccess tempId s.client,
                   sendFetches := s.sendFetches + 1 }
  | sendPostFail (s : PollSystem) (tempId errMsg : String)
      (h : tempId ∈ s.sendPosts) :
      PollStep s { s with
                   sendPosts := s.sendPosts.erase tempId,
                   client := sendFailure tempId errMsg s.client }
  | sendResolve (s : PollSystem) (resp : Except String StateData)
      (h : 0 < s.sendFetches) :
      PollStep s { s with
                   sendFetches := s.sendFetches - 1,
                   client := loadState resp s.client }
  | cleanup (s : PollSystem) :
      PollStep s { s with active := false, timers := s.timers - 1 }

/-- Client state at mount with a stored token, before the first cycle. -/
def initClient : ClientState :=
  { token := some "tok", me := none, users := [], messages := [],
    pendingMessages := [], text := "", attachments := [], error := "",
    ready := false }

/-- System state right after mount with a stored token: the effect called
`loop()`, which passed the `active` check and started the first fetch. -/
def pollInit : PollSystem :=
  { active := true, timers := 0, pollFetches := 1, sendFetches := 0,
    sendPosts := [], client := initClient }

/-- States reachable from the mounted client. -/
inductive PollReach : PollSystem → Prop
  | init : PollReach pollInit
  | step {s s2 : PollSystem} : PollReach s → PollStep s s2 → PollReach s2

/-- The client after the first successful cycle. -/
def syncedClient : ClientState := loadState (Except.ok demoData) initClient

/-- A reachable state with a loop fetch and a send fetch in flight at once. -/
def overlapState : PollSystem :=
  { active := true, timers := 0, pollFetches := 1, sendFetches := 1,
    sendPosts := [], client := syncedClient }

/-- C4 counterexample: two state fetches can be in flight at once — after a
cycle completes and the next tick starts a loop fetch, a submitted
message's POST succeeds and its continuation starts the forced
`loadState` while the loop fetch is still in flight. -/
theorem poll_overlap_counterexample :
    PollReach overlapState ∧ fetchesInFlight overlapState = 2 := by
  refine ⟨?_, rfl⟩
  have r1 := PollReach.step PollReach.init
    (PollStep.pollResolve pollInit (Except.ok demoData) (by decide))
  have r2 := PollReach.step r1 (PollStep.timerFire _ (by decide))
  have r3 := PollReach.step r2
    (PollStep.submit _ demoPending (by decide) (by decide))
  have r4 := PollReach.step r3
    (PollStep.sendPostResolve _ "tmp1" (by decide))
  exact r4

/-- C4 amended: the poll loop itself serializes its fetches — it schedules
the next delay only after its fetch completes, so at most one loop fetch
is ever in flight (and never a loop fetch and a pending tick together);
overlap arises only from the send-triggered forced fetch. -/
theorem poll_loop_serializes (s : PollSystem) (h : PollReach s) :
    s.pollFetches + s.timers ≤ 1 ∧ s.pollFetches ≤ 1 := by
  have main : s.pollFetches + s.timers ≤ 1 := by
    induction h with
    | init => decide
    | step hr hs ih =>
        cases hs with
        | timerFire h =>
            simp only []
            split <;> omega
        | pollResolve resp h =>
            simp only []
            split <;> omega
        | submit m h1 h2 => simpa using ih
        | sendPostResolve tempId h => simpa using ih
        | sendPostFail tempId errMsg h => simpa using ih
        | sendResolve resp h => simpa using ih
        | cleanup =>
            simp only []
            omega
  exact ⟨main, by omega⟩

/-- Witness for C4 amended at the initial mounted state. -/
theorem poll_loop_serializes_witness :
    pollInit.pollFetches + pollInit.timers ≤ 1 ∧ pollInit.pollFetches ≤ 1 :=
  poll_loop_serializes pollInit PollReach.init

/-- The mounted system right after teardown ran with the first fetch still
in flight: `active` is false yet the fetch is pending. -/
def stoppedState : PollSystem :=
  { active := false, timers := 0, pollFetches := 1, sendFetches := 0,
    sendPosts := [], client := initClient }

/-- The system after the in-flight response lands on the stopped client. -/
def lateState : PollSystem :=
  { active := false, timers := 0, pollFetches := 0, sendFetches := 0,
    sendPosts := [], client := syncedClient }

/-- C5 counterexample: a fetch already in flight when the poll effect's
cleanup runs is not discarded — its response still mutates client state
(`loadState` checks no liveness flag), here changing `me` from `none` to
`some "ann"` after `stop()`. -/
theorem stale_response_counterexample :
    PollReach stoppedState ∧ stoppedState.active = false ∧
    0 < stoppedState.pollFetches ∧
    PollStep stoppedState lateState ∧
    lateState.client ≠ stoppedState.client ∧
    lateState.client.me = some "ann" ∧ stoppedState.client.me = none := by
  refine ⟨?_, rfl, by decide, ?_, by decide, rfl, rfl⟩
  · exact PollReach.step PollReach.init (PollStep.cleanup pollInit)
  · exact PollStep.pollResolve stoppedState (Except.ok demoData) (by decide)

/-- No step from `s` mutates the client or starts any fetch or POST. -/
def PollQuiescent (s : PollSystem) : Prop :=
  ∀ s2 : PollSystem, PollStep s s2 →
    s2.client = s.client ∧ s2.active = false ∧
    s2.pollFetches = 0 ∧ s2.sendFetches = 0 ∧ s2.sendPosts = []

/-- C5 amended: cleanup discards nothing that is already in flight — a
loop fetch response arriving after teardown still mutates state (the
counterexample), and a send POST resolving or failing after teardown
still removes its optimistic copy or surfaces its error and, on success,
even starts a fresh `loadState` fetch, all without liveness checks.  What
cleanup does guarantee is only this: no new loop iteration starts, and
once every fetch and send POST that was in flight at teardown has fully
resolved, the system is quiescent — no further step mutates the client or
starts any request. -/
theorem stopped_system_quiescent (s : PollSystem) (h1 : s.active = false)
    (h2 : s.pollFetches = 0) (h3 : s.sendFetches = 0)
    (h4 : s.sendPosts = []) : PollQuiescent s := by
  intro s2 hs
  cases hs with
  | timerFire h =>
      refine ⟨rfl, h1, ?_, h3, h4⟩
      rw [h1]
      simpa using h2
  | pollResolve resp h => omega
  | submit m ha hb => rw [h1] at ha; cases ha
  | sendPostResolve tempId h =>
      rw [h4] at h
      exact absurd h (List.not_mem_nil tempId)
  | sendPostFail tempId errMsg h =>
      rw [h4] at h
      exact absurd h (List.not_mem_nil tempId)
  | sendResolve resp h => omega
  | cleanup => exact ⟨rfl, rfl, h2, h3, h4⟩

/-- A fully stopped system used as concrete input. -/
def quietStopped : PollSystem :=
  { active := false, timers := 0, pollFetches := 0, sendFetches := 0,
    sendPosts := [], client := initClient }

/-- Witness for C5 amended at a concrete stopped system. -/
theorem stopped_system_quiescent_witness : PollQuiescent quietStopped :=
  stopped_system_quiescent quietStopped rfl rfl rfl rfl

/-- Geometry of the message list viewport. -/
structure ScrollView where
  scrollTop : Nat
  scrollHeight : Nat
  clientHeight : Nat
deriving Repr, DecidableEq

/-- The scroll-anchoring controller's state: the viewport, the
`stickToBottomRef` flag and the `showScrollButton` flag. -/
structure ScrollCtl where
  view : ScrollView
  stickToBottom : Bool
  showScrollButton : Bool
deriving Repr, DecidableEq

/-- The distance `scrollHeight - scrollTop - clientHeight` (app.jsx
`checkScrollPosition`). -/
def distanceToBottom (v : ScrollView) : Int :=
  (v.scrollHeight : Int) - v.scrollTop - v.clientHeight

/-- Function `checkScrollPosition`: run on every scroll event; records whether the
viewer is near the bottom (distance below the 90-unit threshold) and shows
the jump-to-bottom affordance otherwise. -/
def checkScrollPosition (c : ScrollCtl) : ScrollCtl :=
  let nearBottom := distanceToBottom c.view < 90
  { c with stickToBottom := nearBottom, showScrollButton := !nearBottom }

/-- Function `scrollToBottom(force)`: when forced or anchored, jump the viewport to
the bottom, re-anchor and hide the affordance; otherwise do nothing. -/
def scrollToBottom (force : Bool) (c : ScrollCtl) : ScrollCtl :=
  if force || c.stickToBottom then
    { c with view := { c.view with scrollTop := c.view.scrollHeight },
             stickToBottom := true, showScrollButton := false }
  else c

/-- The effect on `allMessages`: a timeline mutation grows the content to
`newHeight` and then runs `scrollToBottom()` with no force argument. -/
def timelineMutation (newHeight : Nat) (c : ScrollCtl) : ScrollCtl :=
  scrollToBottom false { c with view := { c.view with scrollHeight := newHeight } }

/-- A timeline mutation caused by the user's own submit: `sendMessage`
sets `stickToBottomRef.current = true` before the pending message lands. -/
def submitMutation (newHeight : Nat) (c : ScrollCtl) : ScrollCtl :=
  timelineMutation newHeight { c with stickToBottom := true }

/-- A viewport scrolled far above the bottom. -/
def farView : ScrollView :=
  { scrollTop := 100, scrollHeight := 1000, clientHeight := 100 }

/-- The controller after measuring `farView`: free-scrolling recorded. -/
def farCtl : ScrollCtl :=
  checkScrollPosition
    { view := farView, stickToBottom := true, showScrollButton := false }

/-- C8 counterexample: with a free-scrolling recorded state (last measured
distance 800, well above the 90-unit threshold), a pending message created
by the user's own submit still force-scrolls the view to the new bottom,
because `sendMessage` overwrites the measured flag before the mutation. -/
theorem scroll_on_own_submit_counterexample :
    (90 : Int) ≤ distanceToBottom farCtl.view ∧
    farCtl.stickToBottom = false ∧
    farCtl.showScrollButton = true ∧
    (submitMutation 1100 farCtl).view.scrollTop = 1100 ∧
    farCtl.view.scrollTop = 100 := by
  exact ⟨by decide, rfl, rfl, rfl, rfl⟩

/-- C8 amended: on a timeline mutation the controller obeys the recorded
flag — anchored: force-scroll to the new bottom, hide the affordance;
free-scrolling: leave scroll position and affordance untouched.  The flag
equals the last measured distance being under the threshold only for
mutations arriving from synchronization; the user's own submit first
re-anchors the flag, so it always force-scrolls regardless of the last
measurement. -/
theorem scroll_controller_spec (newHeight : Nat) (c : ScrollCtl) :
    timelineMutation newHeight c =
      (if c.stickToBottom then
        { c with view := { c.view with scrollHeight := newHeight,
                                       scrollTop := newHeight },
                 stickToBottom := true, showScrollButton := false }
       else { c with view := { c.view with scrollHeight := newHeight } }) ∧
    (submitMutation newHeight c).view.scrollTop = newHeight ∧
    (submitMutation newHeight c).stickToBottom = true ∧
    (submitMutation newHeight c).showScrollButton = false ∧
    (checkScrollPosition c).stickToBottom
      = decide (distanceToBottom c.view < 90) := by
  refine ⟨?_, ?_, ?_, ?_, rfl⟩
  · cases hstick : c.stickToBottom with
    | false => simp [timelineMutation, scrollToBottom, hstick]
    | true => simp [timelineMutation, scrollToBottom, hstick]
  · simp [submitMutation, timelineMutation, scrollToBottom]
  · simp [submitMutation, timelineMutation, scrollToBottom]
  · simp [submitMutation, timelineMutation, scrollToBottom]
